import Mathlib

/-!
Shallow embedding of the fantasysportspro repository: the SQLite-backed
persistence layer (`src/db/database.py`), the dashboard query construction
(`src/db/dashboard.py`), the Yahoo API client (`src/yahoo_api.py`), the player
loader retry loop (`src/load/load_players_data.py`) and the numeric helpers
(`src/utils.py`), together with theorems settling the frozen claims about them.

Machine floats of the source are modelled as rationals, SQL tables as lists of
rows, and fallible Python code as `Option`/`Except` or explicit outcome data.
-/

/-! ## src/utils.py -/

/-- Division as the fallible operation it is in Python: `a / b` raises
`ZeroDivisionError` when `b = 0`, modelled as `none`. -/
def pyDiv (a b : ℚ) : Option ℚ :=
  if b = 0 then none else some (a / b)

/-- Embedding of `calculate_trend` (src/utils.py lines 37-41):
if `previous == 0` it returns `100` when `current > 0` and `0` otherwise;
otherwise it returns `((current - previous) / previous) * 100`.  The division
is routed through `pyDiv` so that a division by zero would surface as `none`. -/
def calculate_trend (current previous : ℚ) : Option ℚ :=
  if previous = 0 then
    some (if current > 0 then 100 else 0)
  else
    (pyDiv (current - previous) previous).map (fun r => r * 100)

/-! ## src/db/database.py : table model

SQLite `INSERT OR REPLACE` deletes any existing row that conflicts with the
incoming row on a uniqueness constraint and then inserts the new row.  Tables
whose declared primary key is the entity key (players, teams, leagues, games,
league_settings, sport_codes) are modelled as plain lists of rows, with
`insertOrReplace` keyed on that column.  Tables declared with
`id INTEGER PRIMARY KEY AUTOINCREMENT` (league_rosters, league_standings,
player_stats, league_points, league_scoreboard, league_schedules,
league_draft_results, team_managers, team_stats) carry the id explicitly:
the only uniqueness constraint is on `id`, and an insert that omits `id`
receives a fresh autoincrement value. -/

/-- Generic `INSERT OR REPLACE` into a table whose primary key is the value
`key r` of the row: conflicting rows are deleted and the new row appended. -/
def insertOrReplaceByKey {ρ κ : Type} [DecidableEq κ] (key : ρ → κ)
    (t : List ρ) (r : ρ) : List ρ :=
  (t.filter (fun row => decide (key row ≠ key r))) ++ [r]

/-- A table declared with `id INTEGER PRIMARY KEY AUTOINCREMENT`: rows carry
their id, and `nextId` is the next autoincrement value. -/
structure AutoIdTable (ρ : Type) where
  rows : List (Nat × ρ)
  nextId : Nat
deriving Repr

/-- Well-formedness of an autoincrement table: every stored id is below the
next autoincrement value (true of every table SQLite produces). -/
def AutoIdTable.WF {ρ : Type} (t : AutoIdTable ρ) : Prop :=
  ∀ p ∈ t.rows, p.1 < t.nextId

/-- The empty autoincrement table. -/
def AutoIdTable.empty {ρ : Type} : AutoIdTable ρ :=
  { rows := [], nextId := 0 }

/-- `INSERT OR REPLACE` into an autoincrement-id table when the insert omits
the `id` column: the row is assigned the fresh id `nextId`, and any row
conflicting on the primary key `id` is deleted (the only uniqueness
constraint these tables declare). -/
def AutoIdTable.insertOrReplace {ρ : Type} (t : AutoIdTable ρ) (r : ρ) :
    AutoIdTable ρ :=
  { rows := (t.rows.filter (fun p => decide (p.1 ≠ t.nextId))) ++ [(t.nextId, r)]
    nextId := t.nextId + 1 }

/-- Number of rows of an autoincrement table whose payload satisfies `p`. -/
def AutoIdTable.countP {ρ : Type} (t : AutoIdTable ρ) (p : ρ → Bool) : Nat :=
  (t.rows.map Prod.snd).countP p

/-! ## src/db/database.py : rows of the tables the claims mention -/

/-- Row of the `players` table (primary key `player_key`); `last_updated` is a
server-side timestamp and is abstracted away. -/
structure PlayerRow where
  player_key : String
  sport_code : String
  name : Option String
  team : Option String
  pos : Option String
  player_status : Option String
  injury_note : Option String
  headshot_url : Option String
  stats : String
deriving DecidableEq, Repr

/-- Row of the `league_rosters` table, minus the autoincrement `id` and the
timestamp. -/
structure LeagueRosterRow where
  league_key : String
  team_key : String
  player_key : String
  selected_position : Option String
  is_starting : Int
  week : Option Int
deriving DecidableEq, Repr

/-- Row of the `league_standings` table, minus the autoincrement `id` and the
timestamp. -/
structure LeagueStandingsRow where
  league_key : String
  team_key : String
  team_name : String
  rank : Option Int
  playoff_seed : Option Int
  wins : Option Int
  losses : Option Int
  ties : Option Int
  percentage : Option ℚ
  points_for : Option ℚ
  points_against : Option ℚ
  streak_type : Option String
  streak_value : Option Int
  season : Option String
  sport_code : Option String
deriving DecidableEq, Repr

/-- Row of the `player_stats` table, minus the autoincrement `id` and the
timestamp. -/
structure PlayerStatsRow where
  player_key : String
  league_key : String
  week : Option Int
  fantasy_points : Option ℚ
  projected_points : Option ℚ
  start_percentage : Option ℚ
  roster_percentage : Option ℚ
  bye_week : Option Int
  passing_yards : Option Int
  passing_touchdowns : Option Int
  passing_interceptions : Option Int
  passing_attempts : Option Int
  rushing_yards : Option Int
  rushing_touchdowns : Option Int
  receptions : Option Int
  receiving_yards : Option Int
  receiving_touchdowns : Option Int
  targets : Option Int
  misc_touchdowns : Option Int
  two_point_conversions : Option Int
  fumbles_lost : Option Int
  final_status : Option String
  opponent : Option String
  game_status : Option String
deriving DecidableEq, Repr

namespace Database

/-- `Database.save_player` success path (src/db/database.py lines 364-386):
a single `INSERT OR REPLACE INTO players` keyed on the primary key
`player_key`. -/
def save_player (t : List PlayerRow) (p : PlayerRow) : List PlayerRow :=
  insertOrReplaceByKey PlayerRow.player_key t p

/-- `Database.save_league_roster` success path (src/db/database.py lines
906-924): `INSERT OR REPLACE INTO league_rosters` without the `id` column, so
the row receives a fresh autoincrement id and can never conflict. -/
def save_league_roster (t : AutoIdTable LeagueRosterRow) (r : LeagueRosterRow) :
    AutoIdTable LeagueRosterRow :=
  t.insertOrReplace r

/-- `Database.save_league_standings` success path (src/db/database.py lines
501-531): `INSERT OR REPLACE INTO league_standings` without the `id` column. -/
def save_league_standings (t : AutoIdTable LeagueStandingsRow)
    (r : LeagueStandingsRow) : AutoIdTable LeagueStandingsRow :=
  t.insertOrReplace r

/-- `Database.save_player_stats` success path (src/db/database.py lines
1162-1192): `INSERT OR REPLACE INTO player_stats` without the `id` column. -/
def save_player_stats (t : AutoIdTable PlayerStatsRow) (r : PlayerStatsRow) :
    AutoIdTable PlayerStatsRow :=
  t.insertOrReplace r

/-- Entity key of a `league_rosters` row as the claim reads it. -/
def rosterKey (r : LeagueRosterRow) : String × String × String × Option Int :=
  (r.league_key, r.team_key, r.player_key, r.week)

end Database

/-! ## src/db/database.py : league_games (Database.save_league_game) -/

/-- Row of the `league_games` table, minus the autoincrement `id` and the
timestamp. -/
structure LeagueGameRow where
  league_key : String
  week : Option Int
  home_team_key : Option String
  away_team_key : Option String
  home_team_points : Option ℚ
  away_team_points : Option ℚ
  home_team_projected_points : Option ℚ
  away_team_projected_points : Option ℚ
  game_status : Option String
  game_start_time : Option String
  is_playoffs : Option Int
  is_consolation : Option Int
  is_tied : Option Int
  winner_team_key : Option String
  matchup_recap_title : Option String
  home_team_manager : Option String
  away_team_manager : Option String
deriving DecidableEq, Repr

namespace Database

/-- The four columns `save_league_game` SELECTs on. -/
def gameKey (g : LeagueGameRow) :
    String × Option Int × Option String × Option String :=
  (g.league_key, g.week, g.home_team_key, g.away_team_key)

/-- Whether an existing row matches the incoming record on the four key
columns (the WHERE clause of both the SELECT and the UPDATE). -/
def gameMatches (r g : LeagueGameRow) : Bool :=
  decide (gameKey g = gameKey r)

/-- The UPDATE branch of `save_league_game`: every non-key column of the
existing row is set from the incoming record; the four key columns (and the
abstracted id) are left as they were. -/
def applyGameUpdate (g r : LeagueGameRow) : LeagueGameRow :=
  { g with
    home_team_points := r.home_team_points
    away_team_points := r.away_team_points
    home_team_projected_points := r.home_team_projected_points
    away_team_projected_points := r.away_team_projected_points
    game_status := r.game_status
    game_start_time := r.game_start_time
    is_playoffs := r.is_playoffs
    is_consolation := r.is_consolation
    is_tied := r.is_tied
    winner_team_key := r.winner_team_key
    matchup_recap_title := r.matchup_recap_title
    home_team_manager := r.home_team_manager
    away_team_manager := r.away_team_manager }

/-- `Database.save_league_game` success path (src/db/database.py lines
944-1035): SELECT for a row matching the four key columns; if one exists,
UPDATE every row matching the WHERE clause; otherwise INSERT the record.
The table is the list of row payloads in rowid order (ids abstracted). -/
def save_league_game (t : List LeagueGameRow) (r : LeagueGameRow) :
    List LeagueGameRow :=
  if t.any (gameMatches r) then
    t.map (fun g => if gameMatches r g then applyGameUpdate g r else g)
  else
    t ++ [r]

/-- Modelled from the spec: the uniform upsert mechanism the spec describes,
a single `INSERT OR REPLACE` keyed on
(league_key, week, home_team_key, away_team_key) — conflicting rows are
deleted and the new record appended. -/
def leagueGamesUpsertSpec (t : List LeagueGameRow) (r : LeagueGameRow) :
    List LeagueGameRow :=
  (t.filter (fun g => !(gameMatches r g))) ++ [r]

end Database

/-! ## src/db/database.py : error handling of the save methods

Every `save_*` method wraps its SQL in `try`/`except Exception`; the handler
logs and calls `self.conn.rollback()`.  All handlers then return normally,
except `save_team`, whose handler ends in `raise`.  A run of a save method is
modelled by the committed state it leaves and whether it re-raised: SQLite
rollback discards the uncommitted statements of the open transaction, so on
error the committed state is unchanged. -/

namespace Database

/-- Observable outcome of one save-method call: the committed database state
afterwards and whether the method re-raised the exception to its caller. -/
structure SaveOutcome (σ : Type) where
  state : σ
  raised : Bool
deriving Repr

/-- The try/commit/except/rollback shape shared by the save methods: on
success the transaction commits and `app` is the published effect; on an SQL
error the handler rolls the transaction back (committed state unchanged) and
re-raises exactly when `reraise` is set. -/
def runSave {σ : Type} (app : σ → σ) (reraise : Bool) (st : σ)
    (sqlError : Bool) : SaveOutcome σ :=
  if sqlError then { state := st, raised := reraise }
  else { state := app st, raised := false }

/-- Run of `Database.save_player` (lines 364-386): handler logs and rolls
back, then returns normally. -/
def save_player_run (t : List PlayerRow) (p : PlayerRow) (sqlError : Bool) :
    SaveOutcome (List PlayerRow) :=
  runSave (fun s => save_player s p) false t sqlError

/-- Run of `Database.save_league_roster` (lines 906-924). -/
def save_league_roster_run (t : AutoIdTable LeagueRosterRow)
    (r : LeagueRosterRow) (sqlError : Bool) :
    SaveOutcome (AutoIdTable LeagueRosterRow) :=
  runSave (fun s => save_league_roster s r) false t sqlError

/-- Run of `Database.save_league_standings` (lines 501-531). -/
def save_league_standings_run (t : AutoIdTable LeagueStandingsRow)
    (r : LeagueStandingsRow) (sqlError : Bool) :
    SaveOutcome (AutoIdTable LeagueStandingsRow) :=
  runSave (fun s => save_league_standings s r) false t sqlError

/-- Run of `Database.save_player_stats` (lines 1162-1192). -/
def save_player_stats_run (t : AutoIdTable PlayerStatsRow)
    (r : PlayerStatsRow) (sqlError : Bool) :
    SaveOutcome (AutoIdTable PlayerStatsRow) :=
  runSave (fun s => save_player_stats s r) false t sqlError

/-- Run of `Database.save_league_game` (lines 944-1035). -/
def save_league_game_run (t : List LeagueGameRow) (r : LeagueGameRow)
    (sqlError : Bool) : SaveOutcome (List LeagueGameRow) :=
  runSave (fun s => save_league_game s r) false t sqlError

end Database

/-! ## src/db/database.py : save_team and save_league_draft_results -/

/-- Row of the `teams` table (primary key `team_key`); the `stats` column
holds the `json.dumps` rendering of the stats dict. -/
structure TeamRow where
  team_key : String
  sport_code : String
  name : Option String
  logo_url : Option String
  stats : String
deriving DecidableEq, Repr

/-- Row of the `team_managers` table, minus the autoincrement `id`. -/
structure ManagerRow where
  team_key : String
  manager_id : Option String
  nickname : Option String
  guid : Option String
deriving DecidableEq, Repr

/-- Row of the `team_stats` table, minus the autoincrement `id`. -/
structure TeamStatRow where
  team_key : String
  stat_key : String
  stat_value : Option String
deriving DecidableEq, Repr

/-- The `team_data['stats']['manager']` entry. -/
structure ManagerData where
  manager_id : Option String
  nickname : Option String
  guid : Option String
deriving DecidableEq, Repr

/-- The `stats` dict of the input to `save_team`, split into its optional
`'manager'` entry and the remaining key/value pairs (values already rendered
to strings, as the source does with `json.dumps`/`str`). -/
structure TeamStatsDict where
  manager : Option ManagerData
  others : List (String × String)
deriving DecidableEq, Repr

/-- Input record of `save_team`; `stats_json` is the `json.dumps` rendering
of the stats dict stored in the `teams.stats` column. -/
structure TeamData where
  team_key : String
  sport_code : String
  name : Option String
  logo_url : Option String
  stats : Option TeamStatsDict
  stats_json : String
deriving DecidableEq, Repr

/-- The three tables `save_team` writes. -/
structure TeamsState where
  teams : List TeamRow
  team_managers : AutoIdTable ManagerRow
  team_stats : AutoIdTable TeamStatRow
deriving Repr

/-- Row of the `league_draft_results` table, minus the autoincrement `id`. -/
structure DraftResultRow where
  league_key : String
  season : String
  round : Int
  pick : Int
  team_key : String
  player_key : String
deriving DecidableEq, Repr

namespace Database

/-- Success path of `Database.save_team` (src/db/database.py lines 388-444):
replace the `teams` row keyed on `team_key`; if the stats dict holds a
`'manager'` entry, insert it into `team_managers`; insert every other stats
entry into `team_stats` (both autoincrement-id tables). -/
def save_team_apply (st : TeamsState) (d : TeamData) : TeamsState :=
  let newRow : TeamRow :=
    { team_key := d.team_key, sport_code := d.sport_code, name := d.name
      logo_url := d.logo_url, stats := d.stats_json }
  let st1 : TeamsState :=
    { st with teams := insertOrReplaceByKey TeamRow.team_key st.teams newRow }
  match d.stats with
  | none => st1
  | some sd =>
    let st2 : TeamsState :=
      match sd.manager with
      | none => st1
      | some m =>
        let mrow : ManagerRow :=
          { team_key := d.team_key, manager_id := m.manager_id
            nickname := m.nickname, guid := m.guid }
        { st1 with team_managers := st1.team_managers.insertOrReplace mrow }
    sd.others.foldl
      (fun s kv =>
        let srow : TeamStatRow :=
          { team_key := d.team_key, stat_key := kv.1, stat_value := some kv.2 }
        { s with team_stats := s.team_stats.insertOrReplace srow })
      st2

/-- Run of `Database.save_team` (lines 388-444): its handler logs, rolls the
transaction back and then ends in `raise`, so on an SQL error the exception
propagates to the caller. -/
def save_team_run (st : TeamsState) (d : TeamData) (sqlError : Bool) :
    SaveOutcome TeamsState :=
  runSave (fun s => save_team_apply s d) true st sqlError

/-- Uncommitted table contents of `save_league_draft_results` just before an
exception at loop iteration `k` (the first `k` INSERTs have executed inside
the still-open transaction). -/
def save_league_draft_results_pending (t : AutoIdTable DraftResultRow)
    (rows : List DraftResultRow) (k : Nat) : AutoIdTable DraftResultRow :=
  (rows.take k).foldl AutoIdTable.insertOrReplace t

/-- Run of `Database.save_league_draft_results` (src/db/database.py lines
1063-1082): one `INSERT OR REPLACE` per record inside a single transaction,
committed at the end.  `sqlError = some k` models an exception at loop
iteration `k`: the handler's rollback discards all pending inserts, and the
method returns normally. -/
def save_league_draft_results_run (t : AutoIdTable DraftResultRow)
    (rows : List DraftResultRow) (sqlError : Option Nat) :
    SaveOutcome (AutoIdTable DraftResultRow) :=
  match sqlError with
  | some _ => { state := t, raised := false }
  | none => { state := rows.foldl AutoIdTable.insertOrReplace t, raised := false }

end Database

/-! ## src/load/load_players_data.py : retry loop of the player loader -/

/-- Embedding of `wait_with_backoff` (src/load/load_players_data.py lines
15-19): the sleep length is `base_wait * (2 ** retry_count)` plus a value
drawn by `random.uniform(0, 1)`, supplied here as the `jitter` argument. -/
def wait_with_backoff (retry_count : Nat) (base_wait jitter : ℚ) : ℚ :=
  base_wait * 2 ^ retry_count + jitter

/-- Outcome of one attempt of `load_players_batch`: `make_request` raised, or
the response failed one of the shape checks, or the players block was usable
(carrying the player entries and the block's reported count). -/
inductive BatchOutcome where
  | exc
  | noContent
  | shortGame
  | playersNotDict
  | good (players : List String) (batch_count : Nat)
deriving DecidableEq, Repr

/-- Observable behaviour of one `load_players_batch` call: the returned value
(`none` models the Python return `(None, 0)`), how many requests were
attempted, and the sleep lengths in order. -/
structure BatchRun where
  result : Option (List String × Nat)
  attemptsMade : Nat
  waits : List ℚ
deriving DecidableEq, Repr

/-- The `while retry_count <= max_retries` loop of `load_players_batch`
(src/load/load_players_data.py lines 81-117).  `attempts i` is the outcome of
attempt number `i` (`i` equals the current `retry_count`), `jitters k` the
random jitter drawn before retry number `k`.  On `exc`, `noContent` and
`shortGame` the loop retries after `wait_with_backoff` while
`retry_count < max_retries` and otherwise returns `(None, 0)`; on
`playersNotDict` it returns `(None, 0)` immediately; on `good` it returns the
players and count.  Fuel bounds the recursion; `max_retries + 1` always
suffices. -/
def load_players_batch_go (attempts : Nat → BatchOutcome) (jitters : Nat → ℚ)
    (max_retries : Nat) : Nat → Nat → List ℚ → BatchRun
  | 0, rc, acc => { result := none, attemptsMade := rc, waits := acc }
  | fuel + 1, rc, acc =>
    match attempts rc with
    | .good ps c => { result := some (ps, c), attemptsMade := rc + 1, waits := acc }
    | .playersNotDict => { result := none, attemptsMade := rc + 1, waits := acc }
    | .exc =>
      if rc < max_retries then
        load_players_batch_go attempts jitters max_retries fuel (rc + 1)
          (acc ++ [wait_with_backoff (rc + 1) 2 (jitters (rc + 1))])
      else { result := none, attemptsMade := rc + 1, waits := acc }
    | .noContent =>
      if rc < max_retries then
        load_players_batch_go attempts jitters max_retries fuel (rc + 1)
          (acc ++ [wait_with_backoff (rc + 1) 2 (jitters (rc + 1))])
      else { result := none, attemptsMade := rc + 1, waits := acc }
    | .shortGame =>
      if rc < max_retries then
        load_players_batch_go attempts jitters max_retries fuel (rc + 1)
          (acc ++ [wait_with_backoff (rc + 1) 2 (jitters (rc + 1))])
      else { result := none, attemptsMade := rc + 1, waits := acc }

/-- `load_players_batch` with its default `max_retries = 3` and `base_wait = 2`,
starting at `retry_count = 0`. -/
def load_players_batch (attempts : Nat → BatchOutcome) (jitters : Nat → ℚ) :
    BatchRun :=
  load_players_batch_go attempts jitters 3 4 0 []

/-! ## src/db/dashboard.py : dashboard query construction -/

namespace dashboard

/-- SQL text issued by `load_seasons` (src/db/dashboard.py lines 186-192):
a constant with no runtime values. -/
def load_seasons_sql : String :=
  "SELECT DISTINCT season FROM leagues ORDER BY season DESC"

/-- SQL text issued by `load_leagues` (src/db/dashboard.py lines 194-200):
an f-string that interpolates the selected season into the statement. -/
def load_leagues_sql (season : String) : String :=
  "SELECT league_key, name FROM leagues WHERE season = '" ++ season ++ "'"

/-- SQL text of the league-details query built inside the first dashboard tab
(src/db/dashboard.py lines 357-361): an f-string interpolating the selected
league key. -/
def league_query_sql (selected_league : String) : String :=
  "SELECT league_key, sport_code, name, season, settings, last_updated FROM leagues WHERE league_key = '"
    ++ selected_league ++ "'"

/-- A query handed to the database engine: its SQL text plus the values bound
as parameters. -/
structure SqlCall where
  text : String
  params : List String
deriving DecidableEq, Repr

/-- The player-stats query of `display_player_stats` (src/db/dashboard.py
lines 226-264): constant SQL text with the league key and week supplied as
bound parameters. -/
def display_player_stats_call (league_key : String) (week : Int) : SqlCall :=
  { text := "SELECT p.position as Pos, p.name as Player, p.team as Team, p.status as Status, p.headshot_url as HeadshotUrl, ps.bye_week as Bye, ROUND(ps.fantasy_points, 2) as \"Fan Pts\", ROUND(ps.projected_points, 2) as \"Proj Pts\", ps.start_percentage as \"% Start\", ps.roster_percentage as \"% Ros\", ps.passing_yards as \"Pass Yds\", ps.passing_touchdowns as \"Pass TD\", ps.passing_interceptions as Int, ps.passing_attempts as \"Pass Att\", ps.rushing_yards as \"Rush Yds\", ps.rushing_touchdowns as \"Rush TD\", ps.receptions as Rec, ps.receiving_yards as \"Rec Yds\", ps.receiving_touchdowns as \"Rec TD\", ps.targets as Tgt, ps.misc_touchdowns as \"Misc TD\", ps.two_point_conversions as \"2PT\", ps.fumbles_lost as Lost, ps.final_status as \"Final\", ps.opponent as Opp FROM players p JOIN player_stats ps ON p.player_key = ps.player_key WHERE ps.league_key = ? AND ps.week = ? ORDER BY ps.fantasy_points DESC"
    params := [league_key, toString week] }

/-- The query submitted by `load_leagues`: the interpolated text, with no
bound parameters. -/
def load_leagues_call (season : String) : SqlCall :=
  { text := load_leagues_sql season, params := [] }

end dashboard

/-! ## src/yahoo_api.py : YahooFantasyAPI.get_players (lines 557-673) -/

/-- One dict item of the `player` list in a players response; the source's
elif chain reads at most one field from each item. -/
inductive RawItem where
  | player_key (v : String)
  | name (full : Option String)
  | team (v : String)
  | position (v : String)
  | playerStatus (v : String)
  | injury_note (v : String)
  | headshot (url : Option String)
  | other
deriving DecidableEq, Repr

/-- The `player_info` dict assembled by `get_players` for one player. -/
structure PlayerInfo where
  player_key : Option String
  name : Option String
  team : Option String
  position : Option String
  playerStatus : Option String
  injury_note : Option String
  headshot_url : Option String
deriving DecidableEq, Repr

/-- The empty `player_info` dict. -/
def PlayerInfo.init : PlayerInfo :=
  { player_key := none, name := none, team := none, position := none
    playerStatus := none, injury_note := none, headshot_url := none }

/-- One step of the elif chain over the items of the `player` list. -/
def applyRawItem (info : PlayerInfo) (it : RawItem) : PlayerInfo :=
  match it with
  | .player_key v => { info with player_key := some v }
  | .name full => { info with name := full }
  | .team v => { info with team := some v }
  | .position v => { info with position := some v }
  | .playerStatus v => { info with playerStatus := some v }
  | .injury_note v => { info with injury_note := some v }
  | .headshot url => { info with headshot_url := url }
  | .other => info

/-- Extraction of one `player_info` from the raw `player` item list. -/
def extract_player_info (items : List RawItem) : PlayerInfo :=
  items.foldl applyRawItem PlayerInfo.init

/-- The `players` block of one game in the response: its reported `count`
field and the entries stored under the string indices "0", "1", …; position
`i` of `entries` holds `none` when index `i` is absent from the dict, and an
empty item list when the entry has no usable `player` list. -/
structure PlayersBlock where
  count : Nat
  entries : List (Option (List RawItem))
deriving DecidableEq, Repr

/-- The index loop `for idx in range(count)` over the players dict: stop at
the first absent index (`break`), skip entries with no usable player list
(`continue`), and visit at most `count` (the requested page size) entries. -/
def collectRaw : Nat → List (Option (List RawItem)) → List (List RawItem)
  | 0, _ => []
  | _ + 1, [] => []
  | _ + 1, none :: _ => []
  | n + 1, some items :: rest =>
    if items.isEmpty then collectRaw n rest else items :: collectRaw n rest

/-- The guard `not existing_player_keys or key not in existing_player_keys`:
a player key passes when no list was supplied, the supplied list is empty
(falsy), or the key is not in it. -/
def allowedByExisting (existing : Option (List String)) (k : String) : Bool :=
  match existing with
  | none => true
  | some l => l.isEmpty || !(l.contains k)

/-- Accumulator of the extraction loops of `get_players`. -/
structure GetPlayersState where
  players_list : List PlayerInfo
  total_available : Nat
  new_players_found : Nat
deriving DecidableEq, Repr

/-- Processing of one extracted player: append it and bump
`new_players_found` when its key is truthy and passes the
`existing_player_keys` guard. -/
def processPlayers (existing : Option (List String)) (st : GetPlayersState)
    (items : List RawItem) : GetPlayersState :=
  match (extract_player_info items).player_key with
  | some k =>
    if !k.isEmpty && allowedByExisting existing k then
      { st with players_list := st.players_list ++ [extract_player_info items]
                new_players_found := st.new_players_found + 1 }
    else st
  | none => st

/-- Processing of one game of the response: a game that fails the shape
checks (`none`) is skipped; otherwise `total_available` is overwritten with
the block's reported count and the block's players are processed. -/
def processGame (count : Nat) (existing : Option (List String))
    (st : GetPlayersState) (g : Option PlayersBlock) : GetPlayersState :=
  match g with
  | none => st
  | some block =>
    (collectRaw count block.entries).foldl (processPlayers existing)
      { st with total_available := block.count }

/-- Return value of `get_players`. -/
structure GetPlayersResult where
  players : List PlayerInfo
  total_available : Nat
  new_players_found : Nat
  has_more : Bool
deriving DecidableEq, Repr

namespace YahooFantasyAPI

/-- Embedding of `YahooFantasyAPI.get_players` (src/yahoo_api.py lines
557-673).  `resp = none` models a response without `fantasy_content` (or an
empty/ill-formed games dict folded into `some []`); otherwise the games are
folded in order and `has_more` compares `start + count` against the last
reported total. -/
def get_players (start count : Nat) (existing : Option (List String))
    (resp : Option (List (Option PlayersBlock))) : GetPlayersResult :=
  match resp with
  | none =>
    { players := [], total_available := 0, new_players_found := 0
      has_more := false }
  | some games =>
    let st := games.foldl (processGame count existing)
      { players_list := [], total_available := 0, new_players_found := 0 }
    { players := st.players_list
      total_available := st.total_available
      new_players_found := st.new_players_found
      has_more := decide (start + count < st.total_available) }

/-- The total player count reported in the response: the `count` field of the
last games block that passes the shape checks, `0` when none does. -/
def reportedTotal (resp : Option (List (Option PlayersBlock))) : Nat :=
  match resp with
  | none => 0
  | some games =>
    games.foldl
      (fun acc g => match g with | none => acc | some b => b.count) 0

end YahooFantasyAPI

/-! ## src/yahoo_api.py : YahooFantasyAPI.make_request (lines 96-123) -/

/-- What one `self.session.get` call produces: a response with status code
and (possibly undecodable) JSON body, or a raised network error. -/
inductive GetResult where
  | success (statusCode : Nat) (body : Option String)
  | netError
deriving DecidableEq, Repr

/-- What the `_refresh_access_token` call does (src/yahoo_api.py lines
264-305): the token POST returns 200 and the updated token is saved via
`_save_token`; or it returns a non-200 status, which is only logged; or the
attempt raises and the handler re-raises. -/
inductive RefreshOutcome where
  | refreshed (token : String)
  | httpFail (statusCode : Nat)
  | raised
deriving DecidableEq, Repr

/-- Environment of one `make_request` call: the first response, the behaviour
of the token refresh (used only on a 401), and the retried response. -/
structure RequestEnv where
  first : GetResult
  refresh : RefreshOutcome
  retry : GetResult
deriving DecidableEq, Repr

/-- Observable trace of one `make_request` call: how many HTTP requests were
issued, which tokens were persisted via `_save_token`, and whether the call
returned a body or raised. -/
structure RequestTrace where
  requestsMade : Nat
  savedTokens : List String
  outcome : Except Unit String
deriving Repr

namespace YahooFantasyAPI

/-- Tail of `make_request` after the 401 handling: `raise_for_status` raises
on any status of 400 or above, a failed `response.json()` decode raises, and
a raised network error propagates; all are caught, logged and re-raised. -/
def handleResponse (r : GetResult) (n : Nat) (saved : List String) :
    RequestTrace :=
  match r with
  | .netError => { requestsMade := n, savedTokens := saved, outcome := .error () }
  | .success code body =>
    if 400 ≤ code then
      { requestsMade := n, savedTokens := saved, outcome := .error () }
    else
      match body with
      | some s => { requestsMade := n, savedTokens := saved, outcome := .ok s }
      | none => { requestsMade := n, savedTokens := saved, outcome := .error () }

/-- Embedding of `YahooFantasyAPI.make_request` (src/yahoo_api.py lines
96-123): issue the request; on a 401 attempt a token refresh and issue the
request exactly once more; then `raise_for_status` and JSON-decode, with
every exception logged and re-raised. -/
def make_request (env : RequestEnv) : RequestTrace :=
  match env.first with
  | .netError => { requestsMade := 1, savedTokens := [], outcome := .error () }
  | .success code body =>
    if code = 401 then
      match env.refresh with
      | .raised => { requestsMade := 1, savedTokens := [], outcome := .error () }
      | .refreshed t => handleResponse env.retry 2 [t]
      | .httpFail _ => handleResponse env.retry 2 []
    else
      handleResponse (.success code body) 1 []

end YahooFantasyAPI

/-! ## src/yahoo_api.py : YahooFantasyAPI.get_games (lines 325-380) -/

/-- One extracted `game_info` dict: the fields the sort key reads, plus the
game key. -/
structure GameInfo where
  code : String
  season : Int
  game_key : String
deriving DecidableEq, Repr

namespace YahooFantasyAPI

/-- The sort key `(x.get('code'), -int(x.get('season', 0)))` under the
lexicographic tuple order Python's `sorted` applies. -/
def gameSortKey (g : GameInfo) : Lex (String × ℤ) :=
  toLex (g.code, -g.season)

/-- The order `sorted` arranges the games in. -/
def gameOrder (a b : GameInfo) : Prop :=
  gameSortKey a ≤ gameSortKey b

instance : DecidableRel gameOrder :=
  fun a b => inferInstanceAs (Decidable (gameSortKey a ≤ gameSortKey b))

instance : IsTotal GameInfo gameOrder :=
  ⟨fun _ _ => le_total _ _⟩

instance : IsTrans GameInfo gameOrder :=
  ⟨fun _ _ _ => le_trans⟩

/-- The season filter `not seasons or game_info.get('season') in
map(str, seasons)`. -/
def seasonKeep (seasons : Option (List Int)) (g : GameInfo) : Bool :=
  match seasons with
  | none => true
  | some l => l.isEmpty || l.contains g.season

/-- The per-sport extraction loop: entries failing the shape checks are
`none` and skipped. -/
def extractGames (resp : List (Option GameInfo)) : List GameInfo :=
  resp.filterMap id

/-- Embedding of `YahooFantasyAPI.get_games` (src/yahoo_api.py lines
325-380): the games extracted from each sport's response are filtered by
season, concatenated, and returned sorted by the key
`(code, -season)`; the stable sort is modelled by insertion sort. -/
def get_games (sportResponses : List (List (Option GameInfo)))
    (seasons : Option (List Int)) : List GameInfo :=
  List.insertionSort gameOrder
    ((sportResponses.map (fun r => (extractGames r).filter (seasonKeep seasons))).flatten)

end YahooFantasyAPI

/-! ## Concrete sample records used by counterexamples and witnesses -/

/-- A concrete league roster record. -/
def sampleRoster : LeagueRosterRow :=
  { league_key := "449.l.1", team_key := "449.l.1.t.1", player_key := "449.p.100"
    selected_position := some "QB", is_starting := 1, week := some 1 }

/-- A concrete league game record. -/
def sampleGame : LeagueGameRow :=
  { league_key := "449.l.1", week := some 1
    home_team_key := some "449.l.1.t.1", away_team_key := some "449.l.1.t.2"
    home_team_points := some 101, away_team_points := some 95
    home_team_projected_points := none, away_team_projected_points := none
    game_status := some "postevent", game_start_time := none
    is_playoffs := some 0, is_consolation := some 0, is_tied := some 0
    winner_team_key := some "449.l.1.t.1", matchup_recap_title := none
    home_team_manager := none, away_team_manager := none }

/-- A concrete team record. -/
def sampleTeamData : TeamData :=
  { team_key := "449.l.1.t.1", sport_code := "nfl", name := some "Team One"
    logo_url := none, stats := none, stats_json := "\x7b\x7d" }

/-- An empty teams state. -/
def sampleTeamsState : TeamsState :=
  { teams := [], team_managers := AutoIdTable.empty, team_stats := AutoIdTable.empty }

/-- A concrete players response: one games block reporting 30 total players
and holding two player entries. -/
def sampleResp : Option (List (Option PlayersBlock)) :=
  some [some { count := 30
               entries := [some [RawItem.player_key "449.p.1"],
                           some [RawItem.player_key "449.p.2"]] }]

/-! ## Helper lemmas -/

/-- Replacing by key leaves exactly one row carrying the new row's key. -/
theorem countP_insertOrReplaceByKey {ρ κ : Type} [DecidableEq κ] (key : ρ → κ)
    (t : List ρ) (r : ρ) :
    (insertOrReplaceByKey key t r).countP (fun x => decide (key x = key r)) = 1 := by
  unfold insertOrReplaceByKey
  rw [List.countP_append]
  have h0 : (t.filter (fun row => decide (key row ≠ key r))).countP
      (fun x => decide (key x = key r)) = 0 := by
    rw [List.countP_eq_zero]
    intro a ha
    rw [List.mem_filter] at ha
    simpa using of_decide_eq_true ha.2
  rw [h0]
  simp

/-- The empty autoincrement table is well-formed. -/
theorem AutoIdTable.wf_empty {ρ : Type} : (AutoIdTable.empty (ρ := ρ)).WF := by
  intro p hp
  simp [AutoIdTable.empty] at hp

/-- Inserting preserves well-formedness of an autoincrement table. -/
theorem AutoIdTable.wf_insertOrReplace {ρ : Type} {t : AutoIdTable ρ}
    (h : t.WF) (r : ρ) : (t.insertOrReplace r).WF := by
  intro p hp
  simp only [AutoIdTable.insertOrReplace, List.mem_append, List.mem_filter] at hp ⊢
  rcases hp with ⟨hm, _⟩ | hp
  · exact Nat.lt_succ_of_lt (h p hm)
  · simp at hp
    simp [hp]

/-- On a well-formed autoincrement table, `INSERT OR REPLACE` without the id
column conflicts with nothing: it appends, and every row count grows by the
new row's contribution. -/
theorem AutoIdTable.countP_insertOrReplace {ρ : Type} {t : AutoIdTable ρ}
    (h : t.WF) (r : ρ) (p : ρ → Bool) :
    (t.insertOrReplace r).countP p = t.countP p + (if p r then 1 else 0) := by
  unfold AutoIdTable.countP AutoIdTable.insertOrReplace
  have hf : t.rows.filter (fun q => decide (q.1 ≠ t.nextId)) = t.rows := by
    rw [List.filter_eq_self]
    intro a ha
    have := h a ha
    simp
    omega
  simp only [hf, List.map_append, List.countP_append, List.map_cons,
    List.map_nil]
  simp [List.countP_cons]

/-! ## C9 : calculate_trend is total and never divides by zero -/

/-- C9: `calculate_trend` is total — it never reaches a division by zero —
and returns `100`/`0` when `previous = 0` (depending on the sign of
`current`) and `((current - previous) / previous) * 100` otherwise. -/
theorem calculate_trend_total :
    ∀ current previous : ℚ,
      calculate_trend current previous =
        some (if previous = 0 then (if current > 0 then 100 else 0)
              else (current - previous) / previous * 100) := by
  intro c p
  by_cases hp : p = 0 <;> simp [calculate_trend, pyDiv, hp]

/-! ## C1 : which save operations actually replace by entity key -/

/-- C1 counterexample: two `save_league_roster` calls with identical entity
key values (league_key, team_key, player_key, week) leave two rows with those
key values, not exactly one — the `league_rosters` table's only primary key
is the omitted autoincrement id, so `INSERT OR REPLACE` never replaces. -/
theorem save_league_roster_duplicates :
    (Database.save_league_roster
        (Database.save_league_roster AutoIdTable.empty sampleRoster)
        sampleRoster).countP
      (fun x => decide (Database.rosterKey x = Database.rosterKey sampleRoster)) = 2
    ∧ (Database.save_league_roster
        (Database.save_league_roster AutoIdTable.empty sampleRoster)
        sampleRoster).countP
      (fun x => decide (Database.rosterKey x = Database.rosterKey sampleRoster)) ≠ 1 := by
  constructor
  · rfl
  · decide

/-- C1 (amended): replacement by entity key holds exactly for the tables
whose declared primary key is the entity key — after two `save_player` calls
with the same `player_key` the players table holds exactly one row for that
key — while the saves into autoincrement-id tables (`save_league_roster`,
`save_league_standings`, `save_player_stats`) append a fresh row on every
call: two calls with the same entity key values add two rows for those
values. -/
theorem save_replaces_only_by_declared_primary_key :
    (∀ (t : List PlayerRow) (p : PlayerRow),
        (Database.save_player (Database.save_player t p) p).countP
          (fun x => decide (x.player_key = p.player_key)) = 1)
    ∧ (∀ (t : AutoIdTable LeagueRosterRow) (r : LeagueRosterRow), t.WF →
        (Database.save_league_roster (Database.save_league_roster t r) r).countP
            (fun x => decide (Database.rosterKey x = Database.rosterKey r))
          = t.countP (fun x => decide (Database.rosterKey x = Database.rosterKey r)) + 2)
    ∧ (∀ (t : AutoIdTable LeagueStandingsRow) (r : LeagueStandingsRow), t.WF →
        (Database.save_league_standings (Database.save_league_standings t r) r).countP
            (fun x => decide ((x.league_key, x.team_key) = (r.league_key, r.team_key)))
          = t.countP (fun x => decide ((x.league_key, x.team_key) = (r.league_key, r.team_key))) + 2)
    ∧ (∀ (t : AutoIdTable PlayerStatsRow) (r : PlayerStatsRow), t.WF →
        (Database.save_player_stats (Database.save_player_stats t r) r).countP
            (fun x => decide ((x.player_key, x.league_key, x.week)
              = (r.player_key, r.league_key, r.week)))
          = t.countP (fun x => decide ((x.player_key, x.league_key, x.week)
              = (r.player_key, r.league_key, r.week))) + 2) := by
  refine ⟨?_, ?_, ?_, ?_⟩
  · intro t p
    exact countP_insertOrReplaceByKey PlayerRow.player_key (Database.save_player t p) p
  · intro t r hwf
    unfold Database.save_league_roster
    rw [AutoIdTable.countP_insertOrReplace (AutoIdTable.wf_insertOrReplace hwf r) r,
      AutoIdTable.countP_insertOrReplace hwf r]
    simp
  · intro t r hwf
    unfold Database.save_league_standings
    rw [AutoIdTable.countP_insertOrReplace (AutoIdTable.wf_insertOrReplace hwf r) r,
      AutoIdTable.countP_insertOrReplace hwf r]
    simp
  · intro t r hwf
    unfold Database.save_player_stats
    rw [AutoIdTable.countP_insertOrReplace (AutoIdTable.wf_insertOrReplace hwf r) r,
      AutoIdTable.countP_insertOrReplace hwf r]
    simp

/-- Witness for C1 (amended) at a concrete table and record. -/
theorem save_replaces_only_by_declared_primary_key_witness :
    (Database.save_league_roster
        (Database.save_league_roster AutoIdTable.empty sampleRoster)
        sampleRoster).countP
      (fun x => decide (Database.rosterKey x = Database.rosterKey sampleRoster))
    = AutoIdTable.empty.countP
        (fun x => decide (Database.rosterKey x = Database.rosterKey sampleRoster)) + 2 :=
  save_replaces_only_by_declared_primary_key.2.1 AutoIdTable.empty sampleRoster
    AutoIdTable.wf_empty

/-! ## C2 : save_league_game against the spec's single upsert -/

/-- Updating a row that matches the incoming record on all four key columns
rewrites it to exactly the incoming record. -/
theorem applyGameUpdate_eq_of_matches {r g : LeagueGameRow}
    (hg : Database.gameMatches r g = true) : Database.applyGameUpdate g r = r := by
  have hk : Database.gameKey g = Database.gameKey r := of_decide_eq_true hg
  cases g
  cases r
  simp only [Database.gameKey, Prod.mk.injEq] at hk
  obtain ⟨h1, h2, h3, h4⟩ := hk
  simp [Database.applyGameUpdate, h1, h2, h3, h4]

/-- A list with no matching row is unchanged by the UPDATE map. -/
theorem map_update_of_countP_zero {r : LeagueGameRow} :
    ∀ {t : List LeagueGameRow}, t.countP (Database.gameMatches r) = 0 →
      t.map (fun g => if Database.gameMatches r g then Database.applyGameUpdate g r else g) = t := by
  intro t
  induction t with
  | nil => intro _; rfl
  | cons g gs ih =>
    intro h
    cases hg : Database.gameMatches r g with
    | true =>
      rw [List.countP_cons_of_pos _ _ hg] at h
      omega
    | false =>
      rw [List.countP_cons_of_neg _ _ (by simp [hg])] at h
      simp [hg, ih h]

/-- A list with no row satisfying `p` is unchanged by filtering on `!p`. -/
theorem filter_not_of_countP_zero {α : Type} {p : α → Bool} {t : List α}
    (h : t.countP p = 0) : t.filter (fun a => !(p a)) = t := by
  rw [List.filter_eq_self]
  intro a ha
  have := List.countP_eq_zero.mp h a ha
  simp at this
  simp [this]

/-- When exactly one row matches, UPDATE-in-place is the same multiset of
rows as delete-matching-then-append. -/
theorem map_update_perm_filter {r : LeagueGameRow} :
    ∀ {t : List LeagueGameRow}, t.countP (Database.gameMatches r) = 1 →
      (t.map (fun g => if Database.gameMatches r g then Database.applyGameUpdate g r else g)).Perm
        ((t.filter (fun g => !(Database.gameMatches r g))) ++ [r]) := by
  intro t
  induction t with
  | nil => intro h; simp at h
  | cons g gs ih =>
    intro h
    cases hg : Database.gameMatches r g with
    | true =>
      rw [List.countP_cons_of_pos _ _ hg] at h
      have hz : gs.countP (Database.gameMatches r) = 0 := by omega
      simp only [List.map_cons, List.filter_cons, hg, if_pos,
        Bool.not_true, applyGameUpdate_eq_of_matches hg,
        map_update_of_countP_zero hz, filter_not_of_countP_zero hz]
      simpa using (List.perm_append_singleton r gs).symm
    | false =>
      rw [List.countP_cons_of_neg _ _ (by simp [hg])] at h
      simp only [List.map_cons, List.filter_cons, hg, Bool.not_false, if_true,
        if_false, List.cons_append]
      exact (ih h).cons g

/-- C2 counterexample: starting from a table in which two rows carry the key
(league_key, week, home_team_key, away_team_key) of the incoming record,
`save_league_game` UPDATEs both rows (two rows remain) while the spec's
single insert-or-replace keyed on those columns leaves one row, so the two
effects differ. -/
theorem save_league_game_differs_from_upsert :
    ¬ (Database.save_league_game [sampleGame, sampleGame] sampleGame).Perm
        (Database.leagueGamesUpsertSpec [sampleGame, sampleGame] sampleGame) := by
  intro h
  have hlen := h.length_eq
  simp [Database.save_league_game, Database.leagueGamesUpsertSpec,
    Database.gameMatches, List.filter] at hlen

/-- C2 (amended): on every starting table in which at most one row matches
the record on (league_key, week, home_team_key, away_team_key) — the
invariant `save_league_game` itself maintains — the SELECT-then-UPDATE/INSERT
of `save_league_game` produces the same multiset of rows as the single
insert-or-replace keyed on those four columns. -/
theorem save_league_game_refines_upsert :
    ∀ (t : List LeagueGameRow) (r : LeagueGameRow),
      t.countP (Database.gameMatches r) ≤ 1 →
      (Database.save_league_game t r).Perm (Database.leagueGamesUpsertSpec t r) := by
  intro t r h
  unfold Database.save_league_game Database.leagueGamesUpsertSpec
  cases hany : t.any (Database.gameMatches r) with
  | false =>
    have hz : t.countP (Database.gameMatches r) = 0 := by
      rw [List.countP_eq_zero]
      intro a ha
      exact (List.any_eq_false.mp hany) a ha
    rw [if_neg (by simp [hany]), filter_not_of_countP_zero hz]
  | true =>
    have hpos : 0 < t.countP (Database.gameMatches r) := by
      rw [List.countP_pos_iff]
      obtain ⟨a, ha, hpa⟩ := List.any_eq_true.mp hany
      exact ⟨a, ha, hpa⟩
    have h1 : t.countP (Database.gameMatches r) = 1 := by omega
    rw [if_pos (by simp [hany])]
    exact map_update_perm_filter h1

/-- Witness for C2 (amended) at a concrete table and record. -/
theorem save_league_game_refines_upsert_witness :
    (Database.save_league_game [sampleGame] sampleGame).Perm
      (Database.leagueGamesUpsertSpec [sampleGame] sampleGame) :=
  save_league_game_refines_upsert [sampleGame] sampleGame (by decide)

/-! ## C3 : which save methods propagate SQL exceptions -/

/-- C3 counterexample: an SQL error inside `save_team` is logged and rolled
back, but its handler then ends in `raise`, so the exception propagates to
the caller — contradicting the claim that no save operation ever raises. -/
theorem save_team_raises :
    (Database.save_team_run sampleTeamsState sampleTeamData true).raised = true := by
  rfl

/-- C3 (amended): every `save_*` method catches an SQL error, logs, rolls
back and returns normally — except `save_team`, whose handler re-raises, so
`save_team` propagates the exception exactly when the SQL errors. -/
theorem save_methods_catch_log_continue :
    (∀ t p e, (Database.save_player_run t p e).raised = false)
    ∧ (∀ t r e, (Database.save_league_roster_run t r e).raised = false)
    ∧ (∀ t r e, (Database.save_league_standings_run t r e).raised = false)
    ∧ (∀ t r e, (Database.save_player_stats_run t r e).raised = false)
    ∧ (∀ t r e, (Database.save_league_game_run t r e).raised = false)
    ∧ (∀ t rows e, (Database.save_league_draft_results_run t rows e).raised = false)
    ∧ (∀ st d e, (Database.save_team_run st d e).raised = e) := by
  refine ⟨?_, ?_, ?_, ?_, ?_, ?_, ?_⟩
  · intro t p e
    cases e <;> rfl
  · intro t r e
    cases e <;> rfl
  · intro t r e
    cases e <;> rfl
  · intro t r e
    cases e <;> rfl
  · intro t r e
    cases e <;> rfl
  · intro t rows e
    cases e <;> rfl
  · intro st d e
    cases e <;> rfl

/-! ## C8 : a failed save leaves the committed state unchanged -/

/-- C8: every modelled `save_*` method rolls the open transaction back in its
exception handler, so the committed database state after a failed call equals
the state before it — including `save_league_draft_results`, whose partially
executed batch (`save_league_draft_results_pending`) is discarded whole by
the rollback, whichever iteration `k` the exception strikes at. -/
theorem save_rollback_restores_state :
    (∀ t p, (Database.save_player_run t p true).state = t)
    ∧ (∀ t r, (Database.save_league_roster_run t r true).state = t)
    ∧ (∀ t r, (Database.save_league_standings_run t r true).state = t)
    ∧ (∀ t r, (Database.save_player_stats_run t r true).state = t)
    ∧ (∀ t r, (Database.save_league_game_run t r true).state = t)
    ∧ (∀ st d, (Database.save_team_run st d true).state = st)
    ∧ (∀ t rows k, (Database.save_league_draft_results_run t rows (some k)).state = t) := by
  refine ⟨?_, ?_, ?_, ?_, ?_, ?_, ?_⟩
  · intro t p
    rfl
  · intro t r
    rfl
  · intro t r
    rfl
  · intro t r
    rfl
  · intro t r
    rfl
  · intro st d
    rfl
  · intro t rows k
    rfl

/-! ## C4 : the player loader's retry backoff -/

/-- C4 counterexample: with every attempt failing and `random.uniform(0,1)`
drawing 1/2, the wait before retry 1 is `2 * 2^1 + 1/2 = 9/2`, not the
claimed bare exponential `2 * 2^1`: the sleep has a random jitter component. -/
theorem backoff_wait_has_jitter :
    (load_players_batch (fun _ => BatchOutcome.exc) (fun _ => (1 : ℚ)/2)).waits
      = [9/2, 17/2, 33/2]
    ∧ ((9 : ℚ)/2 ≠ 2 * 2 ^ 1) := by
  constructor
  · show [2 * 2 ^ 1 + (1 : ℚ)/2, 2 * 2 ^ 2 + (1 : ℚ)/2, 2 * 2 ^ 3 + (1 : ℚ)/2]
      = [9/2, 17/2, 33/2]
    norm_num
  · norm_num

/-- C4 (amended): every run of `load_players_batch` makes at most
`max_retries + 1 = 4` attempts; when every attempt fails with an exception it
makes exactly 4, gives up returning `(None, 0)`, and the wait before retry
`k` is `base_wait * 2^k + jitter_k` with `base_wait = 2` and `jitter_k` the
value drawn by `random.uniform(0, 1)` before that retry. -/
theorem load_players_batch_backoff :
    (∀ (a : Nat → BatchOutcome) (j : Nat → ℚ),
        (load_players_batch a j).attemptsMade ≤ 4)
    ∧ (∀ j : Nat → ℚ,
        load_players_batch (fun _ => BatchOutcome.exc) j =
          { result := none, attemptsMade := 4
            waits := [2 * 2 ^ 1 + j 1, 2 * 2 ^ 2 + j 2, 2 * 2 ^ 3 + j 3] }) := by
  constructor
  · intro a j
    have hgo : ∀ (fuel rc : Nat) (acc : List ℚ), rc ≤ 3 →
        (load_players_batch_go a j 3 fuel rc acc).attemptsMade ≤ 4 := by
      intro fuel
      induction fuel with
      | zero =>
        intro rc acc hrc
        simpa [load_players_batch_go] using Nat.le_succ_of_le hrc
      | succ n ih =>
        intro rc acc hrc
        unfold load_players_batch_go
        cases a rc with
        | good ps c => simpa using Nat.succ_le_succ hrc
        | playersNotDict => simpa using Nat.succ_le_succ hrc
        | exc =>
          by_cases hlt : rc < 3
          · rw [if_pos hlt]
            exact ih (rc + 1) _ hlt
          · rw [if_neg hlt]
            simpa using Nat.succ_le_succ hrc
        | noContent =>
          by_cases hlt : rc < 3
          · rw [if_pos hlt]
            exact ih (rc + 1) _ hlt
          · rw [if_neg hlt]
            simpa using Nat.succ_le_succ hrc
        | shortGame =>
          by_cases hlt : rc < 3
          · rw [if_pos hlt]
            exact ih (rc + 1) _ hlt
          · rw [if_neg hlt]
            simpa using Nat.succ_le_succ hrc
    exact hgo 4 0 [] (by omega)
  · intro j
    rfl

/-! ## C5 : dashboard query parameterization -/

/-- C5 counterexample: `load_leagues` builds its SQL with an f-string, so two
runs with different selected seasons hand different SQL texts to the engine
(with no bound parameters), contradicting the claim that every dashboard
query text is a constant independent of the runtime values. -/
theorem load_leagues_sql_not_constant :
    dashboard.load_leagues_sql "2022" ≠ dashboard.load_leagues_sql "2023" := by
  decide

/-- C5 (amended): the dashboard mixes the two styles — the player-stats query
of `display_player_stats` is parameterized (constant SQL text, league key and
week bound as parameters), while `load_leagues` and the league-details query
interpolate the selected season or league into the SQL text itself and bind
nothing, so their texts differ across inputs. -/
theorem dashboard_query_construction :
    (∀ (lk1 : String) (w1 : Int) (lk2 : String) (w2 : Int),
        (dashboard.display_player_stats_call lk1 w1).text
          = (dashboard.display_player_stats_call lk2 w2).text)
    ∧ (dashboard.load_leagues_call "2022").params = []
    ∧ (dashboard.load_leagues_call "2022").text ≠ (dashboard.load_leagues_call "2023").text
    ∧ dashboard.league_query_sql "449.l.1" ≠ dashboard.league_query_sql "449.l.2" := by
  refine ⟨fun _ _ _ _ => rfl, rfl, ?_, ?_⟩
  · decide
  · decide

/-! ## C10 : get_games returns a sorted list -/

/-- C10: for every combination of per-sport responses and season filters, the
list `get_games` returns is sorted by sport code ascending and, within equal
sport codes, by season descending. -/
theorem get_games_sorted :
    ∀ (sportResponses : List (List (Option GameInfo))) (seasons : Option (List Int)),
      (YahooFantasyAPI.get_games sportResponses seasons).Pairwise
        (fun a b => a.code < b.code ∨ (a.code = b.code ∧ b.season ≤ a.season)) := by
  intro sportResponses seasons
  have hs := List.sorted_insertionSort YahooFantasyAPI.gameOrder
    ((sportResponses.map
      (fun r => (YahooFantasyAPI.extractGames r).filter
        (YahooFantasyAPI.seasonKeep seasons))).flatten)
  refine List.Pairwise.imp ?_ hs
  intro a b hab
  have h1 := (Prod.Lex.le_iff (a.code, -a.season) (b.code, -b.season)).mp hab
  rcases h1 with h1 | ⟨h1, h2⟩
  · exact Or.inl h1
  · exact Or.inr ⟨h1, by simpa using neg_le_neg_iff.mp h2⟩

/-! ## C6 : get_players pagination, filtering and counting -/

/-- Processing one extracted player either leaves the state unchanged or
appends exactly the extracted `player_info`, bumping `new_players_found`,
with its key having passed the `existing_player_keys` guard. -/
theorem processPlayers_dichotomy (existing : Option (List String))
    (st : GetPlayersState) (items : List RawItem) :
    processPlayers existing st items = st
    ∨ ∃ k, (extract_player_info items).player_key = some k
        ∧ processPlayers existing st items
            = { st with
                players_list := st.players_list ++ [extract_player_info items]
                new_players_found := st.new_players_found + 1 }
        ∧ allowedByExisting existing k = true := by
  cases hk : (extract_player_info items).player_key with
  | none => exact Or.inl (by simp [processPlayers, hk])
  | some k =>
    cases hc : (!k.isEmpty && allowedByExisting existing k) with
    | false => exact Or.inl (by simp [processPlayers, hk, hc])
    | true =>
      refine Or.inr ⟨k, rfl, by simp [processPlayers, hk, hc], ?_⟩
      have hc2 := hc
      simp only [Bool.and_eq_true] at hc2
      exact hc2.2

/-- A key that passed the `existing_player_keys` guard is not a member of the
supplied key list. -/
theorem allowedByExisting_not_mem {keys : List String} {k : String}
    (h : allowedByExisting (some keys) k = true) : k ∉ keys := by
  cases keys with
  | nil => simp
  | cons a l =>
    simp only [allowedByExisting, List.isEmpty_cons, Bool.false_or,
      Bool.not_eq_true'] at h
    simpa using h

/-- Invariants of the inner player fold: the reported total is untouched,
`new_players_found` tracks the length of the accumulated list, and every
accumulated player was present before or passed the key guard. -/
theorem foldl_processPlayers_inv (existing : Option (List String))
    (raws : List (List RawItem)) :
    ∀ st : GetPlayersState,
      (raws.foldl (processPlayers existing) st).total_available = st.total_available
      ∧ (st.new_players_found = st.players_list.length →
          (raws.foldl (processPlayers existing) st).new_players_found
            = (raws.foldl (processPlayers existing) st).players_list.length)
      ∧ (∀ p ∈ (raws.foldl (processPlayers existing) st).players_list,
          p ∈ st.players_list
          ∨ ∀ keys, existing = some keys → ∀ k, p.player_key = some k → k ∉ keys) := by
  induction raws with
  | nil =>
    intro st
    exact ⟨rfl, fun h => h, fun p hp => Or.inl hp⟩
  | cons items rest ih =>
    intro st
    simp only [List.foldl_cons]
    rcases processPlayers_dichotomy existing st items with hstep | ⟨k, hk, hstep, hallow⟩
    · rw [hstep]
      exact ih st
    · rw [hstep]
      obtain ⟨ht, hl, hm⟩ := ih
        { st with players_list := st.players_list ++ [extract_player_info items]
                  new_players_found := st.new_players_found + 1 }
      refine ⟨ht, ?_, ?_⟩
      · intro h
        exact hl (by simp [h])
      · intro p hp
        rcases hm p hp with hmem | hkeys
        · simp only [List.mem_append, List.mem_singleton] at hmem
          rcases hmem with hmem | rfl
          · exact Or.inl hmem
          · refine Or.inr ?_
            intro keys hkeys k2 hk2
            rw [hk] at hk2
            cases hk2
            subst hkeys
            exact allowedByExisting_not_mem hallow
        · exact Or.inr hkeys

/-- Invariants of the outer game fold: the reported total is the overwrite
fold over the blocks, counts track list length, and every accumulated player
was present before or passed the key guard. -/
theorem foldl_processGame_inv (count : Nat) (existing : Option (List String))
    (games : List (Option PlayersBlock)) :
    ∀ st : GetPlayersState,
      (games.foldl (processGame count existing) st).total_available
        = games.foldl
            (fun acc g => match g with | none => acc | some b => b.count)
            st.total_available
      ∧ (st.new_players_found = st.players_list.length →
          (games.foldl (processGame count existing) st).new_players_found
            = (games.foldl (processGame count existing) st).players_list.length)
      ∧ (∀ p ∈ (games.foldl (processGame count existing) st).players_list,
          p ∈ st.players_list
          ∨ ∀ keys, existing = some keys → ∀ k, p.player_key = some k → k ∉ keys) := by
  induction games with
  | nil =>
    intro st
    exact ⟨rfl, fun h => h, fun p hp => Or.inl hp⟩
  | cons g rest ih =>
    intro st
    simp only [List.foldl_cons]
    cases g with
    | none =>
      simpa only [processGame] using ih st
    | some block =>
      obtain ⟨hin_t, hin_l, hin_m⟩ := foldl_processPlayers_inv existing
        (collectRaw count block.entries) { st with total_available := block.count }
      obtain ⟨hout_t, hout_l, hout_m⟩ := ih (processGame count existing st (some block))
      refine ⟨?_, ?_, ?_⟩
      · rw [hout_t]
        simp only [processGame, hin_t]
      · intro h
        refine hout_l ?_
        simp only [processGame]
        exact hin_l h
      · intro p hp
        rcases hout_m p hp with hmem | hkeys
        · simp only [processGame] at hmem
          rcases hin_m p hmem with hmem2 | hkeys2
          · exact Or.inl hmem2
          · exact Or.inr hkeys2
        · exact Or.inr hkeys

/-- C6: for every response, `has_more` is true exactly when `start + count`
is strictly below the total player count reported in the response; when an
`existing_player_keys` list is supplied, no returned player carries a key
from it; and `new_players_found` always equals the length of the returned
players list. -/
theorem get_players_pagination :
    ∀ (start count : Nat) (existing : Option (List String))
      (resp : Option (List (Option PlayersBlock))),
      ((YahooFantasyAPI.get_players start count existing resp).has_more = true
        ↔ start + count < YahooFantasyAPI.reportedTotal resp)
      ∧ (YahooFantasyAPI.get_players start count existing resp).new_players_found
          = (YahooFantasyAPI.get_players start count existing resp).players.length
      ∧ (∀ keys, existing = some keys →
          ∀ p ∈ (YahooFantasyAPI.get_players start count existing resp).players,
            ∀ k, p.player_key = some k → k ∉ keys) := by
  intro start count existing resp
  cases resp with
  | none =>
    refine ⟨?_, rfl, ?_⟩
    · simp [YahooFantasyAPI.get_players, YahooFantasyAPI.reportedTotal]
    · intro keys hkeys p hp
      simp [YahooFantasyAPI.get_players] at hp
  | some games =>
    obtain ⟨ht, hl, hm⟩ := foldl_processGame_inv count existing games
      { players_list := [], total_available := 0, new_players_found := 0 }
    refine ⟨?_, ?_, ?_⟩
    · simp only [YahooFantasyAPI.get_players, YahooFantasyAPI.reportedTotal, ht]
      exact decide_eq_true_iff
    · simpa only [YahooFantasyAPI.get_players] using hl rfl
    · intro keys hkeys p hp k hk
      simp only [YahooFantasyAPI.get_players] at hp
      rcases hm p hp with hmem | hprop
      · simp at hmem
      · exact hprop keys hkeys k hk

/-- Witness for C6 at a concrete response with a supplied key list. -/
theorem get_players_pagination_witness :
    ((YahooFantasyAPI.get_players 0 25 (some ["449.p.2"]) sampleResp).has_more = true
      ↔ 0 + 25 < YahooFantasyAPI.reportedTotal sampleResp)
    ∧ "449.p.1" ∉ ["449.p.2"] := by
  refine ⟨(get_players_pagination 0 25 (some ["449.p.2"]) sampleResp).1, ?_⟩
  refine (get_players_pagination 0 25 (some ["449.p.2"]) sampleResp).2.2
    ["449.p.2"] rfl (extract_player_info [RawItem.player_key "449.p.1"]) ?_ "449.p.1" rfl
  decide

/-! ## C7 : make_request 401 handling -/

/-- C7 counterexample: when the token-refresh attempt itself raises, the
exception propagates out of `make_request` before any retry is issued — only
one request is made, not the claimed refresh-plus-exactly-one-retry. -/
theorem make_request_refresh_raise_skips_retry :
    (YahooFantasyAPI.make_request
      { first := GetResult.success 401 none, refresh := RefreshOutcome.raised
        retry := GetResult.success 200 (some "ok") }).requestsMade = 1
    ∧ (YahooFantasyAPI.make_request
      { first := GetResult.success 401 none, refresh := RefreshOutcome.raised
        retry := GetResult.success 200 (some "ok") }).requestsMade ≠ 2 := by
  constructor
  · rfl
  · decide

/-- The post-retry tail of `make_request` issues no further requests and
saves no further tokens. -/
theorem handleResponse_fields :
    ∀ (r : GetResult) (n : Nat) (saved : List String),
      (YahooFantasyAPI.handleResponse r n saved).requestsMade = n
      ∧ (YahooFantasyAPI.handleResponse r n saved).savedTokens = saved := by
  intro r n saved
  cases r with
  | netError => exact ⟨rfl, rfl⟩
  | success c b =>
    simp only [YahooFantasyAPI.handleResponse]
    split
    · exact ⟨rfl, rfl⟩
    · cases b <;> exact ⟨rfl, rfl⟩

/-- A response with an error status makes the tail of `make_request` raise. -/
theorem handleResponse_error_status :
    ∀ (c : Nat) (b : Option String) (n : Nat) (saved : List String), 400 ≤ c →
      (YahooFantasyAPI.handleResponse (GetResult.success c b) n saved).outcome
        = Except.error () := by
  intro c b n saved h
  simp only [YahooFantasyAPI.handleResponse]
  rw [if_pos h]

/-- On a 401 first response, `make_request` reduces to the tail applied to
the retried response, with two requests made and the refreshed token (when
the refresh succeeded) recorded. -/
theorem make_request_401_reduction :
    ∀ (body : Option String) (retry : GetResult),
      (∀ t, YahooFantasyAPI.make_request
          { first := GetResult.success 401 body
            refresh := RefreshOutcome.refreshed t, retry := retry }
        = YahooFantasyAPI.handleResponse retry 2 [t])
      ∧ (∀ c0, YahooFantasyAPI.make_request
          { first := GetResult.success 401 body
            refresh := RefreshOutcome.httpFail c0, retry := retry }
        = YahooFantasyAPI.handleResponse retry 2 []) := by
  intro body retry
  exact ⟨fun t => rfl, fun c0 => rfl⟩

/-- C7 (amended): on an HTTP 401, `make_request` attempts a token refresh;
when the refresh attempt returns normally it retries the request exactly once
(two requests in total), every successfully refreshed token is persisted via
`_save_token`, and a retried request that fails — an error status or a raised
network error — makes `make_request` raise to its caller; when the refresh
attempt itself raises, that exception propagates with no retry issued. -/
theorem make_request_401_behaviour :
    ∀ (body : Option String) (refresh : RefreshOutcome) (retry : GetResult),
      (refresh ≠ RefreshOutcome.raised →
        (YahooFantasyAPI.make_request
          { first := GetResult.success 401 body, refresh := refresh
            retry := retry }).requestsMade = 2)
      ∧ (∀ t, refresh = RefreshOutcome.refreshed t →
          (YahooFantasyAPI.make_request
            { first := GetResult.success 401 body, refresh := refresh
              retry := retry }).savedTokens = [t])
      ∧ (∀ c b, retry = GetResult.success c b → 400 ≤ c →
          refresh ≠ RefreshOutcome.raised →
          (YahooFantasyAPI.make_request
            { first := GetResult.success 401 body, refresh := refresh
              retry := retry }).outcome = Except.error ())
      ∧ (retry = GetResult.netError → refresh ≠ RefreshOutcome.raised →
          (YahooFantasyAPI.make_request
            { first := GetResult.success 401 body, refresh := refresh
              retry := retry }).outcome = Except.error ())
      ∧ (refresh = RefreshOutcome.raised →
          (YahooFantasyAPI.make_request
            { first := GetResult.success 401 body, refresh := refresh
              retry := retry }).requestsMade = 1
          ∧ (YahooFantasyAPI.make_request
            { first := GetResult.success 401 body, refresh := refresh
              retry := retry }).outcome = Except.error ()) := by
  intro body refresh retry
  refine ⟨?_, ?_, ?_, ?_, ?_⟩
  · intro hne
    cases refresh with
    | raised => exact absurd rfl hne
    | refreshed t =>
      rw [(make_request_401_reduction body retry).1 t]
      exact (handleResponse_fields retry 2 [t]).1
    | httpFail c0 =>
      rw [(make_request_401_reduction body retry).2 c0]
      exact (handleResponse_fields retry 2 []).1
  · intro t ht
    subst ht
    rw [(make_request_401_reduction body retry).1 t]
    exact (handleResponse_fields retry 2 [t]).2
  · intro c b hret h400 hne
    subst hret
    cases refresh with
    | raised => exact absurd rfl hne
    | refreshed t =>
      rw [(make_request_401_reduction body (GetResult.success c b)).1 t]
      exact handleResponse_error_status c b 2 [t] h400
    | httpFail c0 =>
      rw [(make_request_401_reduction body (GetResult.success c b)).2 c0]
      exact handleResponse_error_status c b 2 [] h400
  · intro hret hne
    subst hret
    cases refresh with
    | raised => exact absurd rfl hne
    | refreshed t => rfl
    | httpFail c0 => rfl
  · intro hraise
    subst hraise
    exact ⟨rfl, rfl⟩

/-- Witness for C7 (amended) at a concrete environment: a 401 answered by a
successful refresh and a retry that fails with a 500. -/
theorem make_request_401_behaviour_witness :
    (YahooFantasyAPI.make_request
      { first := GetResult.success 401 none
        refresh := RefreshOutcome.refreshed "tok"
        retry := GetResult.success 500 none }).requestsMade = 2
    ∧ (YahooFantasyAPI.make_request
      { first := GetResult.success 401 none
        refresh := RefreshOutcome.refreshed "tok"
        retry := GetResult.success 500 none }).savedTokens = ["tok"]
    ∧ (YahooFantasyAPI.make_request
      { first := GetResult.success 401 none
        refresh := RefreshOutcome.refreshed "tok"
        retry := GetResult.success 500 none }).outcome = Except.error () := by
  refine ⟨(make_request_401_behaviour none (RefreshOutcome.refreshed "tok")
      (GetResult.success 500 none)).1 (by simp),
    (make_request_401_behaviour none (RefreshOutcome.refreshed "tok")
      (GetResult.success 500 none)).2.1 "tok" rfl,
    (make_request_401_behaviour none (RefreshOutcome.refreshed "tok")
      (GetResult.success 500 none)).2.2.1 500 none rfl (by norm_num) (by simp)⟩
